import Mathlib

/-!
Shallow embedding of the request-validation and document-mapping layer of the
e-commerce backend (`src/main.py`, `src/schemas.py`).

Documents of the backing store are modelled as ordered association lists of
string keys and JSON-like values (Python `dict` semantics: unique keys,
insertion order preserved, assignment replaces in place, `pop` removes).
Numbers are modelled as rationals: every numeric literal in the repository
(prices, stock counts, ratings, pagination parameters) is exactly
representable. Store-assigned identifiers (bson `ObjectId`) are modelled by
their canonical 24-character hexadecimal string encoding.
-/

namespace ECom

/-- A JSON-like value as stored in a document. `vOid` is a bson ObjectId,
carried as its 24-hex-character canonical string. -/
inductive Value where
  | vNull
  | vStr (s : String)
  | vNum (q : Rat)
  | vBool (b : Bool)
  | vOid (hex : String)
  | vList (l : List Value)
  | vDoc (d : List (String × Value))

/-- A document: an ordered association list, as a Python `dict`. -/
abbrev Doc := List (String × Value)

/-- `dict.get(k)`: the value at the first occurrence of key `k`, if any. -/
def dget : Doc → String → Option Value
  | [], _ => none
  | (k', v') :: rest, k => if k' = k then some v' else dget rest k

/-- `dict[k] = v`: replace the value at the first occurrence of `k`,
or append `(k, v)` if `k` is absent. -/
def dset : Doc → String → Value → Doc
  | [], k, v => [(k, v)]
  | (k', v') :: rest, k, v =>
      if k' = k then (k, v) :: rest else (k', v') :: dset rest k v

/-- `dict.pop(k)`: remove the first occurrence of key `k`. -/
def derase : Doc → String → Doc
  | [], _ => []
  | (k', v') :: rest, k => if k' = k then rest else (k', v') :: derase rest k

/-- A well-formed Python dict never repeats a key. -/
def keysNodup (d : Doc) : Prop := (d.map Prod.fst).Nodup

instance (d : Doc) : Decidable (keysNodup d) := by
  unfold keysNodup; infer_instance

/-- Python truthiness of a value (`if doc.get("_id")`). An ObjectId is an
object with default truthiness, hence always truthy. -/
def truthy : Value → Bool
  | .vNull => false
  | .vStr s => s ≠ ""
  | .vNum q => q ≠ 0
  | .vBool b => b
  | .vOid _ => true
  | .vList l => !l.isEmpty
  | .vDoc d => !d.isEmpty

/-- Python `str` applied to a value. In `serialize_doc` it is applied to the
`_id` of a stored document, always an ObjectId, whose `str` is its hex
encoding; the remaining cases are given their usual renderings but are not
exercised by stored documents. -/
def pyStr : Value → String
  | .vNull => "None"
  | .vStr s => s
  | .vNum q => toString q
  | .vBool b => if b then "True" else "False"
  | .vOid h => h
  | .vList _ => "<list>"
  | .vDoc _ => "<dict>"

/-- `serialize_doc` (src/main.py lines 36-40):
```
def serialize_doc(doc: dict):
    if not doc:
        return doc
    doc["id"] = str(doc.pop("_id")) if doc.get("_id") else None
    return doc
```
-/
def serialize_doc (doc : Doc) : Doc :=
  if doc.isEmpty then doc
  else
    match dget doc "_id" with
    | some v =>
        if truthy v then dset (derase doc "_id") "id" (.vStr (pyStr v))
        else dset doc "id" .vNull
    | none => dset doc "id" .vNull

/-! ### ObjectId parsing

`bson.ObjectId(s)` on a string succeeds exactly when `s` is a 24-character
hexadecimal string (`ObjectId.is_valid`); any other string raises, landing in
the `except Exception` branch of the lookup endpoints. -/

/-- A hexadecimal digit (either case). -/
def isHexChar (c : Char) : Bool :=
  c.isDigit || ('a' ≤ c && c ≤ 'f') || ('A' ≤ c && c ≤ 'F')

/-- Validity of a caller-supplied identifier string as a bson ObjectId. -/
def isValidOidStr (s : String) : Bool :=
  s.length = 24 && s.data.all isHexChar

/-- `ObjectId(product_id)` as used in the lookup endpoints: the parsed
identifier value, or `none` when the constructor raises. -/
def objectIdOfStr (s : String) : Option Value :=
  if isValidOidStr s then some (.vOid s) else none

/-! ### Regex matching fragment

`list_products` hands the raw query string `q` to the store as
`{"$regex": q, "$options": "i"}`: the store runs `q` as a case-insensitive,
unanchored PCRE pattern over the title. We model the fragment of PCRE
semantics needed here: patterns whose only metacharacter is `.` (match any
one character); all other characters in the modelled patterns are literals.
-/

/-- One token of a pattern: a literal character or the `.` wildcard. -/
inductive RTok where
  | lit (c : Char)
  | dot

/-- Compile a pattern string: `.` is the wildcard, everything else literal
(valid for patterns containing no other PCRE metacharacter). -/
def parsePat (s : String) : List RTok :=
  s.data.map (fun c => if c = '.' then .dot else .lit c)

/-- Case-insensitive match of one token against one character. -/
def rtokMatches : RTok → Char → Bool
  | .dot, _ => true
  | .lit a, c => a.toLower == c.toLower

/-- Match the whole pattern against the front of the text. -/
def matchHere : List RTok → List Char → Bool
  | [], _ => true
  | _ :: _, [] => false
  | t :: ts, c :: cs => rtokMatches t c && matchHere ts cs

/-- Unanchored search: the pattern matches at some position of the text. -/
def regexSearch (p : List RTok) : List Char → Bool
  | [] => matchHere p []
  | c :: cs => matchHere p (c :: cs) || regexSearch p cs

/-- The store-side evaluation of `{"$regex": pat, "$options": "i"}` on a
string. -/
def regexFindCI (pat s : String) : Bool :=
  regexSearch (parsePat pat) s.data

/-- Lowercase a character list. -/
def lcLower (l : List Char) : List Char := l.map Char.toLower

/-- Boolean front-match of one character list against another. -/
def leadB : List Char → List Char → Bool
  | [], _ => true
  | _ :: _, [] => false
  | a :: as, b :: bs => a == b && leadB as bs

/-- Boolean containment of `n` as a contiguous run inside the other list. -/
def subB (n : List Char) : List Char → Bool
  | [] => leadB n []
  | c :: cs => leadB n (c :: cs) || subB n cs

/-- `needle` occurs case-insensitively as a literal substring of `hay`:
the reading of the spec sentence about `q`. -/
def containsSubCI (hay needle : String) : Bool :=
  subB (lcLower needle.data) (lcLower hay.data)

/-! ### Filter construction and evaluation -/

/-- One field condition of a store filter, as built by `list_products`:
`{"$regex": q, "$options": "i"}`, an exact-equality value, the price-range
dict (`$gte`/`$lte`, each optional), or `{"$gte": r}` for the rating. -/
inductive Cond where
  | eq (v : Value)
  | regexCI (pat : String)
  | range (gte lte : Option Rat)
  | gteNum (r : Rat)

/-- A filter document: field name to condition. -/
abbrev Filter := List (String × Cond)

/-- Store-side equality used by equality conditions and `find_one`
(mongo matches our scalar values by plain equality; `vNull`/`vList`/`vDoc`
never occur as lookup values in this program). -/
def valueEqB : Value → Value → Bool
  | .vStr a, .vStr b => a == b
  | .vNum a, .vNum b => a == b
  | .vBool a, .vBool b => a == b
  | .vOid a, .vOid b => a == b
  | _, _ => false

/-- Evaluate one condition against a present field value. -/
def condMatches : Cond → Value → Bool
  | .eq w, v => valueEqB v w
  | .regexCI pat, v =>
      match v with
      | .vStr s => regexFindCI pat s
      | _ => false
  | .range mn mx, v =>
      match v with
      | .vNum p =>
          (match mn with | some m => decide (m ≤ p) | none => true) &&
          (match mx with | some m => decide (p ≤ m) | none => true)
      | _ => false
  | .gteNum r, v =>
      match v with
      | .vNum p => decide (r ≤ p)
      | _ => false

/-- A document matches a filter when every listed field is present and
satisfies its condition (none of this program's filters match on absent
fields). -/
def matchesFilter (f : Filter) (d : Doc) : Bool :=
  f.all (fun kc =>
    match dget d kc.1 with
    | some v => condMatches kc.2 v
    | none => false)

/-- The filter built by `list_products` (src/main.py lines 153-168), with
Python truthiness on the string parameters (`if q:`, `if category:`) and
`is not None` checks on the numeric and boolean ones. The price range dict
is attached only when non-empty (`if price_range:`). -/
def buildProductFilter (q category : Option String)
    (min_price max_price min_rating : Option Rat)
    (featured : Option Bool) : Filter :=
  let f : Filter := []
  let f := match q with
    | some s => if s = "" then f else f ++ [("title", Cond.regexCI s)]
    | none => f
  let f := match category with
    | some s => if s = "" then f else f ++ [("category", Cond.eq (.vStr s))]
    | none => f
  let f := if min_price.isSome || max_price.isSome then
      f ++ [("price", Cond.range min_price max_price)] else f
  let f := match min_rating with
    | some r => f ++ [("rating", Cond.gteNum r)]
    | none => f
  let f := match featured with
    | some b => f ++ [("featured", Cond.eq (.vBool b))]
    | none => f
  f

/-! ### The document store -/

/-- The collections used by the application. The `db` handle may be absent
(store unreachable); endpoints receive it as an `Option Store`. -/
structure Store where
  product : List Doc
  blogpost : List Doc
  order : List Doc
  user : List Doc
  contact : List Doc

/-- `find_one(collection, query)` for an equality query document: the first
stored document whose fields equal every queried value. -/
def findOne (coll : List Doc) (query : List (String × Value)) : Option Doc :=
  coll.find? (fun d =>
    query.all (fun kv =>
      match dget d kv.1 with
      | some w => valueEqB w kv.2
      | none => false))

/-- HTTP error raised by a handler (`raise HTTPException(status, detail)`). -/
structure HTTPException where
  status : Nat
  detail : String
deriving DecidableEq, Repr

/-! ### Seed data (src/main.py lines 50-91, the three sample products) -/

/-- First seeded product. -/
def glassCardPro : Doc :=
  [("title", .vStr "Glass Card Pro"),
   ("description", .vStr "Premium transparent credit card with NFC and rewards."),
   ("price", .vNum 199),
   ("category", .vStr "Cards"),
   ("stock", .vNum 50),
   ("rating", .vNum (24/5)),
   ("images", .vList
     [.vStr "https://images.unsplash.com/photo-1556742393-d75f468bfcb0?auto=format&fit=crop&w=1200&q=60",
      .vStr "https://images.unsplash.com/photo-1542744094-24638eff58bb?auto=format&fit=crop&w=1200&q=60"]),
   ("thumbnail", .vStr "https://images.unsplash.com/photo-1556742393-d75f468bfcb0?auto=format&fit=crop&w=800&q=60"),
   ("featured", .vBool true)]

/-- Second seeded product. -/
def metalCardX : Doc :=
  [("title", .vStr "Metal Card X"),
   ("description", .vStr "Brushed metal card with concierge and lounge access."),
   ("price", .vNum 299),
   ("category", .vStr "Cards"),
   ("stock", .vNum 20),
   ("rating", .vNum (49/10)),
   ("images", .vList
     [.vStr "https://images.unsplash.com/photo-1517245386807-bb43f82c33c4?auto=format&fit=crop&w=1200&q=60"]),
   ("thumbnail", .vStr "https://images.unsplash.com/photo-1517245386807-bb43f82c33c4?auto=format&fit=crop&w=800&q=60"),
   ("featured", .vBool true)]

/-- Third seeded product. -/
def cardSleeve : Doc :=
  [("title", .vStr "Card Sleeve"),
   ("description", .vStr "Minimalist leather sleeve with RFID protection."),
   ("price", .vNum 29),
   ("category", .vStr "Accessories"),
   ("stock", .vNum 200),
   ("rating", .vNum (23/5)),
   ("images", .vList
     [.vStr "https://images.unsplash.com/photo-1555529771-35a38c3c12c1?auto=format&fit=crop&w=1200&q=60"]),
   ("thumbnail", .vStr "https://images.unsplash.com/photo-1555529771-35a38c3c12c1?auto=format&fit=crop&w=800&q=60"),
   ("featured", .vBool false)]

/-- The `sample_products` list inserted on first run. -/
def seedProducts : List Doc := [glassCardPro, metalCardX, cardSleeve]

/-! ### Read endpoints -/

/-- `GET /api/products` handler body (src/main.py lines 141-172), after the
framework has accepted the pagination parameters: filter, `skip`, `limit`,
then serialize every element. With no store handle, the read degrades to the
empty list. -/
def list_products (db : Option Store) (q category : Option String)
    (min_price max_price min_rating : Option Rat) (featured : Option Bool)
    (limit skip : Nat) : List Doc :=
  match db with
  | none => []
  | some store =>
      let filt := buildProductFilter q category min_price max_price min_rating featured
      (((store.product.filter (fun d => matchesFilter filt d)).drop skip).take limit).map
        serialize_doc

/-- The `_id` sort key of a stored document (used by the blog listing's
`sort("_id", -1)`; ObjectId order is the order of the hex encodings). -/
def oidKeyOf (d : Doc) : String :=
  match dget d "_id" with
  | some (.vOid h) => h
  | _ => ""

/-- Insert a document into a list kept in descending `_id` order. -/
def insertDescBy (key : Doc → String) (d : Doc) : List Doc → List Doc
  | [] => [d]
  | x :: xs => if key x ≤ key d then d :: x :: xs else x :: insertDescBy key d xs

/-- Stable sort by descending `_id`. -/
def sortOidDesc : List Doc → List Doc
  | [] => []
  | d :: rest => insertDescBy oidKeyOf d (sortOidDesc rest)

/-- `GET /api/blogs` handler body (src/main.py lines 189-193): newest first,
then `skip`/`limit`, then serialize. -/
def list_blogs (db : Option Store) (limit skip : Nat) : List Doc :=
  match db with
  | none => []
  | some store =>
      (((sortOidDesc store.blogpost).drop skip).take limit).map serialize_doc

/-- `GET /api/products/{product_id}` (src/main.py lines 174-184). With no
store handle the endpoint raises 404 before looking at the identifier; a
string `ObjectId` cannot parse raises inside the `try`, mapped to 400; a
missing (or falsy) document raises 404. -/
def get_product (db : Option Store) (product_id : String) :
    Except HTTPException Doc :=
  match db with
  | none => .error ⟨404, "Not found"⟩
  | some store =>
      match objectIdOfStr product_id with
      | none => .error ⟨400, "Invalid id"⟩
      | some oid =>
          match findOne store.product [("_id", oid)] with
          | some d =>
              if d.isEmpty then .error ⟨404, "Not found"⟩
              else .ok (serialize_doc d)
          | none => .error ⟨404, "Not found"⟩

/-- `GET /api/blogs/{post_id}` (src/main.py lines 195-205), same shape as
`get_product` over the blogpost collection. -/
def get_blog (db : Option Store) (post_id : String) :
    Except HTTPException Doc :=
  match db with
  | none => .error ⟨404, "Not found"⟩
  | some store =>
      match objectIdOfStr post_id with
      | none => .error ⟨400, "Invalid id"⟩
      | some oid =>
          match findOne store.blogpost [("_id", oid)] with
          | some d =>
              if d.isEmpty then .error ⟨404, "Not found"⟩
              else .ok (serialize_doc d)
          | none => .error ⟨404, "Not found"⟩

/-! ### Framework-side query-parameter validation

Modelled from the framework: FastAPI checks `Query(..., ge=…, le=…)`
constraints before the handler runs and rejects any violation with an HTTP
422 response (`RequestValidationError`); nothing in `src/main.py` installs a
handler that would change that status. The bounds themselves are the ones
declared in src/main.py lines 144-149 and 189. -/

/-- Violation of the declared `Query` bounds of `GET /api/products`. -/
def badProductParams (min_price max_price min_rating : Option Rat)
    (limit skip : Int) : Bool :=
  min_price.any (fun m => decide (m < 0)) ||
  max_price.any (fun m => decide (m < 0)) ||
  min_rating.any (fun r => decide (r < 0) || decide (5 < r)) ||
  decide (limit < 1) || decide (100 < limit) || decide (skip < 0)

/-- `GET /api/products` at the HTTP boundary: `.error s` is an HTTP response
with status `s` produced by the framework before the handler runs. -/
def products_endpoint (db : Option Store) (q category : Option String)
    (min_price max_price min_rating : Option Rat) (featured : Option Bool)
    (limit skip : Int) : Except Nat (List Doc) :=
  if badProductParams min_price max_price min_rating limit skip then .error 422
  else .ok (list_products db q category min_price max_price min_rating featured
      limit.toNat skip.toNat)

/-- `GET /api/blogs` at the HTTP boundary. -/
def blogs_endpoint (db : Option Store) (limit skip : Int) :
    Except Nat (List Doc) :=
  if decide (limit < 1) || decide (100 < limit) || decide (skip < 0) then .error 422
  else .ok (list_blogs db limit.toNat skip.toNat)

/-! ### Order body validation (src/schemas.py lines 44-72)

Pydantic validation of the `Order` request body, as declared in
`schemas.py`: fields without a default (`items`, `subtotal`,
`shipping_cost`, `total`, `shipping`, `payment`, and the required fields of
the nested models) must be present or validation fails; defaulted fields
(`Order.status`, `PaymentInfo.method`/`status`,
`ShippingInfo.shipping_method`, `OrderItem.thumbnail`) are filled in when
absent. `model_dump()` lists the fields in declaration order. Leaf type
checks (str vs float vs int) are elided: only field presence and defaults
bear on the claims. Pydantic collects all field errors where we stop at the
first; the request outcome (accepted vs 422-rejected) is the same. -/

/-- A required pydantic field: present or `Field required` error. -/
def requiredKey (d : Doc) (k : String) : Except String Value :=
  match dget d k with
  | some v => .ok v
  | none => .error (k ++ ": Field required")

/-- `PaymentInfo`: both fields defaulted (`"cod"` / `"pending"`). -/
def validatePaymentInfo (v : Value) : Except String Value :=
  match v with
  | .vDoc d =>
      let d := if (dget d "method").isSome then d else d ++ [("method", .vStr "cod")]
      let d := if (dget d "status").isSome then d else d ++ [("status", .vStr "pending")]
      .ok (.vDoc d)
  | _ => .error "payment: Input should be a valid dictionary"

/-- `ShippingInfo`: seven required fields, `shipping_method` defaults to
`"standard"`. -/
def validateShippingInfo (v : Value) : Except String Value :=
  match v with
  | .vDoc d => do
      let _ ← requiredKey d "full_name"
      let _ ← requiredKey d "email"
      let _ ← requiredKey d "phone"
      let _ ← requiredKey d "address"
      let _ ← requiredKey d "city"
      let _ ← requiredKey d "postal_code"
      let _ ← requiredKey d "country"
      let d := if (dget d "shipping_method").isSome then d
        else d ++ [("shipping_method", .vStr "standard")]
      .ok (.vDoc d)
  | _ => .error "shipping: Input should be a valid dictionary"

/-- `OrderItem`: four required fields, `thumbnail` defaults to `None`. -/
def validateOrderItem (v : Value) : Except String Value :=
  match v with
  | .vDoc d => do
      let _ ← requiredKey d "product_id"
      let _ ← requiredKey d "title"
      let _ ← requiredKey d "price"
      let _ ← requiredKey d "quantity"
      let d := if (dget d "thumbnail").isSome then d else d ++ [("thumbnail", .vNull)]
      .ok (.vDoc d)
  | _ => .error "items: Input should be a valid dictionary"

/-- `Order.items`: a list of valid `OrderItem`s. -/
def validateItems (v : Value) : Except String Value :=
  match v with
  | .vList l => do
      let l ← l.mapM validateOrderItem
      .ok (.vList l)
  | _ => .error "items: Input should be a valid list"

/-- Pydantic validation + `model_dump()` of the `Order` body: `payment` is a
field without a default, so a body lacking it is rejected. -/
def model_validate_order (body : Doc) : Except String Doc := do
  let items ← requiredKey body "items"
  let items ← validateItems items
  let subtotal ← requiredKey body "subtotal"
  let shipping_cost ← requiredKey body "shipping_cost"
  let total ← requiredKey body "total"
  let shipping ← requiredKey body "shipping"
  let shipping ← validateShippingInfo shipping
  let payment ← requiredKey body "payment"
  let payment ← validatePaymentInfo payment
  let status := match dget body "status" with | some v => v | none => .vStr "created"
  .ok [("items", items), ("subtotal", subtotal), ("shipping_cost", shipping_cost),
       ("total", total), ("shipping", shipping), ("payment", payment),
       ("status", status)]

/-! ### Write endpoints

Modelled from the spec: `database.py` (the `db` handle, `create_document`)
is not under `src/`; per the spec's collaborator interface,
`insert(collection, document) -> identifier` assigns a fresh
store-generated identifier. The identifier the store would assign is passed
to each write handler explicitly as `freshId`. -/

/-- `POST /api/orders` handler body (src/main.py lines 218-226), applied to
the already-validated, dumped order. Returns the response together with the
document handed to `insert_one` (after the
`order_dict.get("payment", {"method": "cod", "status": "pending"})`
defaulting step). -/
def create_order (db : Option Store) (order_dict : Doc) (freshId : String) :
    Except HTTPException (Doc × Doc) :=
  match db with
  | none => .error ⟨500, "Database not available"⟩
  | some _ =>
      let stored := dset order_dict "payment"
        (match dget order_dict "payment" with
         | some v => v
         | none => .vDoc [("method", .vStr "cod"), ("status", .vStr "pending")])
      .ok ([("order_id", .vStr freshId), ("status", .vStr "created"),
            ("payment_url", .vStr ("https://example-pay.test/checkout/" ++ freshId))],
           stored)

/-- `POST /api/orders` at the HTTP boundary: pydantic body validation (422
on failure) and then the handler. -/
def create_order_endpoint (db : Option Store) (body : Doc) (freshId : String) :
    Except HTTPException (Doc × Doc) :=
  match model_validate_order body with
  | .error e => .error ⟨422, e⟩
  | .ok order_dict => create_order db order_dict freshId

/-- `POST /api/contact` handler (src/main.py lines 236-240). With no store
handle it returns the success body `{"status": "received"}`. -/
def submit_contact (db : Option Store) (name email message : String)
    (freshId : String) : Except HTTPException Doc :=
  match db with
  | none => .ok [("status", .vStr "received")]
  | some _ => .ok [("status", .vStr "ok"), ("id", .vStr freshId)]

/-- `POST /api/auth/register` handler (src/main.py lines 254-261). With no
store handle it returns the success body `{"status": "ok"}`; otherwise an
exact-equality `find_one` on `email` guards the duplicate check. -/
def register (db : Option Store) (name email password : String)
    (freshId : String) : Except HTTPException Doc :=
  match db with
  | none => .ok [("status", .vStr "ok")]
  | some store =>
      match findOne store.user [("email", .vStr email)] with
      | some _ => .error ⟨400, "Email already registered"⟩
      | none => .ok [("status", .vStr "ok"), ("user_id", .vStr freshId)]

/-- `POST /api/auth/login` handler (src/main.py lines 264-270). With no
store handle it returns the fixed demo token without consulting any
credentials; otherwise an exact two-field `find_one` decides. -/
def login (db : Option Store) (email password : String) :
    Except HTTPException Doc :=
  match db with
  | none => .ok [("status", .vStr "ok"), ("token", .vStr "demo-token")]
  | some store =>
      match findOne store.user [("email", .vStr email), ("password", .vStr password)] with
      | some found =>
          if found.isEmpty then .error ⟨401, "Invalid credentials"⟩
          else .ok [("status", .vStr "ok"), ("token", .vStr "demo-token"),
                    ("user", .vDoc (serialize_doc found))]
      | none => .error ⟨401, "Invalid credentials"⟩

/-! ### Fixtures and small helpers used by the theorems -/

/-- Whether a handler outcome is an error response. -/
def isErrorResp (r : Except HTTPException Doc) : Bool :=
  match r with
  | .error _ => true
  | .ok _ => false

/-- A PCRE metacharacter (significant outside character classes). -/
def isRegexMeta (c : Char) : Bool :=
  c == '.' || c == '^' || c == '$' || c == '*' || c == '+' || c == '?' ||
  c == '(' || c == ')' || c == '[' || c == ']' || c == '\\' || c == '|' ||
  c == Char.ofNat 123 || c == Char.ofNat 125

/-- A well-formed order body that omits the `payment` sub-object. -/
def orderBodyNoPayment : Doc :=
  [("items", .vList [.vDoc [("product_id", .vStr "p1"),
      ("title", .vStr "Glass Card Pro"), ("price", .vNum 199),
      ("quantity", .vNum 1)]]),
   ("subtotal", .vNum 199),
   ("shipping_cost", .vNum 0),
   ("total", .vNum 199),
   ("shipping", .vDoc [("full_name", .vStr "A B"), ("email", .vStr "a@x.com"),
      ("phone", .vStr "123"), ("address", .vStr "1 St"), ("city", .vStr "C"),
      ("postal_code", .vStr "0000"), ("country", .vStr "X")])]

/-- The same body with `payment` present but empty. -/
def orderBodyEmptyPayment : Doc := orderBodyNoPayment ++ [("payment", .vDoc [])]

/-- A valid ObjectId hex string for witnesses. -/
def oid1 : String := "0123456789abcdef01234567"

/-- A stored product carrying `oid1`. -/
def prodDoc1 : Doc := [("_id", .vOid oid1), ("title", .vStr "P"), ("price", .vNum 5)]

/-- A second valid ObjectId hex string for witnesses. -/
def oid2 : String := "89abcdef0123456789abcdef"

/-- A stored blog post carrying `oid2`. -/
def blogDoc1 : Doc := [("_id", .vOid oid2), ("title", .vStr "B"), ("author", .vStr "Admin")]

/-- A demo store with one product and one blog post. -/
def demoStore : Store := ⟨[prodDoc1], [blogDoc1], [], [], []⟩

/-- A seeded demo user. -/
def userDoc1 : Doc :=
  [("_id", .vOid "aaaaaaaaaaaaaaaaaaaaaaaa"), ("name", .vStr "A"),
   ("email", .vStr "a@x.com"), ("password", .vStr "p"),
   ("avatar", .vNull), ("is_active", .vBool true)]

/-- A store holding exactly `userDoc1`. -/
def userStore : Store := ⟨[], [], [], [userDoc1], []⟩

/-! ### Dictionary lemmas -/

theorem dget_dset_self (d : Doc) (k : String) (v : Value) :
    dget (dset d k v) k = some v := by
  induction d with
  | nil => simp [dset, dget]
  | cons p rest ih =>
      obtain ⟨k', v'⟩ := p
      by_cases h : k' = k
      · simp [dset, dget, h]
      · simp [dset, dget, h, ih]

theorem dget_dset_ne (d : Doc) (k k' : String) (v : Value) (h : k' ≠ k) :
    dget (dset d k v) k' = dget d k' := by
  induction d with
  | nil => simp [dset, dget, Ne.symm h]
  | cons p rest ih =>
      obtain ⟨k'', v''⟩ := p
      by_cases hk : k'' = k
      · subst hk
        simp [dset, dget, Ne.symm h]
      · by_cases hq : k'' = k'
        · simp [dset, dget, hk, hq, h]
        · simp [dset, dget, hk, hq, ih]

theorem dget_derase_ne (d : Doc) (k k' : String) (h : k' ≠ k) :
    dget (derase d k) k' = dget d k' := by
  induction d with
  | nil => simp [derase, dget]
  | cons p rest ih =>
      obtain ⟨k'', v''⟩ := p
      by_cases hk : k'' = k
      · subst hk
        simp [derase, dget, Ne.symm h]
      · by_cases hq : k'' = k'
        · simp [derase, dget, hk, hq, h]
        · simp [derase, dget, hk, hq, ih]

theorem dget_eq_none_of_not_mem (d : Doc) (k : String)
    (h : k ∉ d.map Prod.fst) : dget d k = none := by
  induction d with
  | nil => simp [dget]
  | cons p rest ih =>
      obtain ⟨k', v'⟩ := p
      simp only [List.map_cons, List.mem_cons, not_or] at h
      simp [dget, Ne.symm h.1, ih h.2]

theorem dget_derase_self (d : Doc) (k : String) (h : keysNodup d) :
    dget (derase d k) k = none := by
  induction d with
  | nil => simp [derase, dget]
  | cons p rest ih =>
      obtain ⟨k', v'⟩ := p
      unfold keysNodup at h
      simp only [List.map_cons, List.nodup_cons] at h
      by_cases hk : k' = k
      · subst hk
        simpa [derase] using dget_eq_none_of_not_mem rest k' h.1
      · simp [derase, dget, hk, ih h.2]

theorem dset_ne_nil (d : Doc) (k : String) (v : Value) : dset d k v ≠ [] := by
  cases d with
  | nil => simp [dset]
  | cons p rest =>
      obtain ⟨k', v'⟩ := p
      by_cases h : k' = k <;> simp [dset, h]

theorem dset_dset_same (d : Doc) (k : String) (v w : Value) :
    dset (dset d k v) k w = dset d k w := by
  induction d with
  | nil => simp [dset]
  | cons p rest ih =>
      obtain ⟨k', v'⟩ := p
      by_cases h : k' = k
      · simp [dset, h]
      · simp [dset, h, ih]

/-- If a document has an `_id`, it is not empty. -/
theorem isEmpty_false_of_dget (d : Doc) (k : String) (v : Value)
    (h : dget d k = some v) : d.isEmpty = false := by
  cases d with
  | nil => simp [dget] at h
  | cons p rest => rfl

/-! ### Claim theorems -/

/-- C1: for every document returned to a caller (single lookups and every
element of a list result alike), serialization removes the store-internal
`_id` field and re-inserts its string representation under the public key
`id`; a document with no identifier gets `id = null` (absent for the empty
document) with no error; every returned document is `serialize_doc` of a
stored one. -/
theorem serialize_doc_id_rule :
    (∀ (doc : Doc), keysNodup doc →
      (∀ h, dget doc "_id" = some (.vOid h) →
        dget (serialize_doc doc) "_id" = none ∧
        dget (serialize_doc doc) "id" = some (.vStr h) ∧
        ∀ k, k ≠ "_id" → k ≠ "id" → dget (serialize_doc doc) k = dget doc k) ∧
      (dget doc "_id" = none →
        (doc ≠ [] → dget (serialize_doc doc) "id" = some .vNull) ∧
        ∀ k, k ≠ "id" → dget (serialize_doc doc) k = dget doc k)) ∧
    (∀ (store : Store) (q c : Option String) (mn mx mr : Option Rat)
        (ft : Option Bool) (limit skip : Nat) (d : Doc),
      d ∈ list_products (some store) q c mn mx mr ft limit skip →
      ∃ orig ∈ store.product, d = serialize_doc orig) ∧
    (∀ (db : Option Store) (pid : String) (d : Doc),
      get_product db pid = .ok d → ∃ orig, d = serialize_doc orig) := by
  refine ⟨?_, ?_, ?_⟩
  · intro doc hnd
    constructor
    · intro h hid
      have hser : serialize_doc doc = dset (derase doc "_id") "id" (.vStr h) := by
        simp [serialize_doc, isEmpty_false_of_dget doc "_id" _ hid, hid, truthy, pyStr]
      refine ⟨?_, ?_, ?_⟩
      · rw [hser, dget_dset_ne _ _ _ _ (by decide), dget_derase_self doc "_id" hnd]
      · rw [hser, dget_dset_self]
      · intro k hk1 hk2
        rw [hser, dget_dset_ne _ _ _ _ hk2, dget_derase_ne _ _ _ hk1]
    · intro hid
      constructor
      · intro hne
        have hE : doc.isEmpty = false := by
          cases doc with
          | nil => exact absurd rfl hne
          | cons p rest => rfl
        simp [serialize_doc, hE, hid, dget_dset_self]
      · intro k hk
        cases doc with
        | nil => simp [serialize_doc]
        | cons p rest =>
            have hser : serialize_doc (p :: rest) = dset (p :: rest) "id" .vNull := by
              simp [serialize_doc, hid]
            rw [hser, dget_dset_ne _ _ _ _ hk]
  · intro store q c mn mx mr ft limit skip d hd
    simp only [list_products] at hd
    obtain ⟨orig, ho, rfl⟩ := List.mem_map.mp hd
    exact ⟨orig,
      List.mem_of_mem_filter (List.mem_of_mem_drop (List.mem_of_mem_take ho)), rfl⟩
  · intro db pid d hok
    cases db with
    | none => simp [get_product] at hok
    | some store =>
        cases hoid : objectIdOfStr pid with
        | none => simp [get_product, hoid] at hok
        | some oid =>
            cases hf : findOne store.product [("_id", oid)] with
            | none => simp [get_product, hoid, hf] at hok
            | some w =>
                by_cases hw : w.isEmpty
                · simp [get_product, hoid, hf, hw] at hok
                · simp [get_product, hoid, hf, hw] at hok
                  exact ⟨w, hok.symm⟩

/-- C1 witness: the rule evaluated on a concrete stored document. -/
theorem serialize_doc_id_rule_witness :
    dget (serialize_doc [("_id", .vOid "aabbccddeeff001122334455"),
        ("title", .vStr "T")]) "id" = some (.vStr "aabbccddeeff001122334455") ∧
    dget (serialize_doc [("_id", .vOid "aabbccddeeff001122334455"),
        ("title", .vStr "T")]) "_id" = none := by
  have h := (serialize_doc_id_rule.1
    [("_id", .vOid "aabbccddeeff001122334455"), ("title", .vStr "T")]
    (by decide)).1 "aabbccddeeff001122334455" rfl
  exact ⟨h.2.1, h.1⟩

/-- C9 counterexample: `serialize_doc` is not idempotent. On a document with
a (truthy) `_id`, the first application yields `id` bound to the hex string,
and the second application overwrites `id` with null, so applying twice
differs from applying once. -/
theorem serialize_doc_not_idem :
    serialize_doc (serialize_doc [("_id", .vOid "aabbccddeeff001122334455")]) ≠
      serialize_doc [("_id", .vOid "aabbccddeeff001122334455")] := by
  have h1 : serialize_doc (serialize_doc [("_id", .vOid "aabbccddeeff001122334455")])
      = [("id", Value.vNull)] := rfl
  have h2 : serialize_doc [("_id", .vOid "aabbccddeeff001122334455")]
      = [("id", Value.vStr "aabbccddeeff001122334455")] := rfl
  rw [h1, h2]
  simp

/-- C9 (amended): applying `serialize_doc` to a document lacking `_id` is a
no-op on the fields other than `id` and produces `id: null`; applying twice
equals applying once for such documents — but not for every document (see
the counterexample: a truthy `_id` turns into an `id` string that the second
application overwrites with null). -/
theorem serialize_doc_idem_no_id (doc : Doc) (h : dget doc "_id" = none) :
    serialize_doc (serialize_doc doc) = serialize_doc doc ∧
    (∀ k, k ≠ "id" → dget (serialize_doc doc) k = dget doc k) ∧
    (doc ≠ [] → dget (serialize_doc doc) "id" = some .vNull) := by
  cases doc with
  | nil => exact ⟨rfl, fun k _ => rfl, fun hne => absurd rfl hne⟩
  | cons p rest =>
      have hser : serialize_doc (p :: rest) = dset (p :: rest) "id" .vNull := by
        simp [serialize_doc, h]
      refine ⟨?_, ?_, ?_⟩
      · rw [hser]
        have h2 : dget (dset (p :: rest) "id" .vNull) "_id" = none := by
          rw [dget_dset_ne _ _ _ _ (by decide)]
          exact h
        have hE : (dset (p :: rest) "id" .vNull).isEmpty = false := by
          cases hd : dset (p :: rest) "id" .vNull with
          | nil => exact absurd hd (dset_ne_nil _ _ _)
          | cons q l => rfl
        simp [serialize_doc, hE, h2, dset_dset_same]
      · intro k hk
        rw [hser, dget_dset_ne _ _ _ _ hk]
      · intro _
        rw [hser, dget_dset_self]

/-- C9 witness: the amended idempotence on a concrete `_id`-less document. -/
theorem serialize_doc_idem_no_id_witness :
    serialize_doc (serialize_doc [("title", .vStr "T")])
      = serialize_doc [("title", .vStr "T")] :=
  (serialize_doc_idem_no_id [("title", .vStr "T")] rfl).1

/-- C2 counterexample: with the store handle absent, POST /api/contact and
POST /api/auth/register do not respond 500 — they return success bodies. -/
theorem contact_register_no_500_counterexample :
    submit_contact none "A" "a@x.com" "hi" "cid" = .ok [("status", .vStr "received")] ∧
    isErrorResp (submit_contact none "A" "a@x.com" "hi" "cid") = false ∧
    register none "A" "a@x.com" "p" "uid" = .ok [("status", .vStr "ok")] ∧
    isErrorResp (register none "A" "a@x.com" "p" "uid") = false :=
  ⟨rfl, rfl, rfl, rfl⟩

/-- C2 (amended): with the store handle absent, only POST /api/orders
responds with a server error (500); POST /api/contact and
POST /api/auth/register return fixed success bodies instead, and the read
listings degrade to empty results. -/
theorem store_unavailable_responses :
    (∀ (order_dict : Doc) (fid : String),
      create_order none order_dict fid = .error ⟨500, "Database not available"⟩) ∧
    (∀ (n e m fid : String),
      submit_contact none n e m fid = .ok [("status", .vStr "received")]) ∧
    (∀ (n e p fid : String),
      register none n e p fid = .ok [("status", .vStr "ok")]) ∧
    (∀ (q c : Option String) (mn mx mr : Option Rat) (ft : Option Bool)
        (limit skip : Nat),
      list_products none q c mn mx mr ft limit skip = []) ∧
    (∀ limit skip : Nat, list_blogs none limit skip = []) :=
  ⟨fun _ _ => rfl, fun _ _ _ _ => rfl, fun _ _ _ _ => rfl,
   fun _ _ _ _ _ _ _ _ => rfl, fun _ _ => rfl⟩

/-- C10: with the store handle absent, POST /api/auth/login returns the
fixed token `demo-token` for every email/password pair and never reaches an
error response (in particular not the 401 invalid-credentials branch). -/
theorem login_no_store_fixed_token (email password : String) :
    login none email password
      = .ok [("status", .vStr "ok"), ("token", .vStr "demo-token")] ∧
    isErrorResp (login none email password) = false :=
  ⟨rfl, rfl⟩

/-- A pattern without `.` compiles to all-literal tokens. -/
theorem parsePat_no_dot (s : String) (h : ∀ c ∈ s.data, c ≠ '.') :
    parsePat s = s.data.map RTok.lit := by
  unfold parsePat
  apply List.map_congr_left
  intro c hc
  simp [h c hc]

/-- Front-matching an all-literal pattern is case-insensitive front
comparison. -/
theorem matchHere_lit (n s : List Char) :
    matchHere (n.map RTok.lit) s = leadB (lcLower n) (lcLower s) := by
  induction n generalizing s with
  | nil => simp [matchHere, leadB, lcLower]
  | cons c cs ih =>
      cases s with
      | nil => simp [matchHere, leadB, lcLower]
      | cons b bs => simp [matchHere, leadB, lcLower, rtokMatches, ih]

/-- Searching an all-literal pattern is case-insensitive substring
containment. -/
theorem regexSearch_lit (n s : List Char) :
    regexSearch (n.map RTok.lit) s = subB (lcLower n) (lcLower s) := by
  induction s with
  | nil => simp [regexSearch, subB, matchHere_lit, lcLower]
  | cons c cs ih => simp [regexSearch, subB, matchHere_lit, ih, lcLower]

/-- C3 counterexample: the query string is passed to the store as a regex,
not a literal. `q = "a.c"` selects the title `"abc"`, which does not contain
`"a.c"` as a literal substring. -/
theorem regex_not_literal_counterexample :
    matchesFilter (buildProductFilter (some "a.c") none none none none none)
      [("title", .vStr "abc")] = true ∧
    containsSubCI "abc" "a.c" = false :=
  ⟨rfl, rfl⟩

/-- C3 (amended): for a non-empty query string free of regex
metacharacters, the product-listing filter selects exactly the titles that
case-insensitively contain it as a literal substring; a query containing
metacharacters is instead interpreted as a regular expression over the
title (see the counterexample). -/
theorem title_filter_literal_substring (q title : String) (d : Doc)
    (hq : q ≠ "") (hmeta : ∀ c ∈ q.data, isRegexMeta c = false)
    (ht : dget d "title" = some (.vStr title)) :
    matchesFilter (buildProductFilter (some q) none none none none none) d
      = containsSubCI title q := by
  have hfilt : buildProductFilter (some q) none none none none none
      = [("title", Cond.regexCI q)] := by
    simp [buildProductFilter, hq]
  have hdot : ∀ c ∈ q.data, c ≠ '.' := by
    intro c hc e
    have hm := hmeta c hc
    rw [e] at hm
    simp [isRegexMeta] at hm
  rw [hfilt]
  simp [matchesFilter, ht, condMatches, regexFindCI, parsePat_no_dot q hdot,
    regexSearch_lit, containsSubCI]

/-- C3 witness: the amended rule at a concrete metacharacter-free query. -/
theorem title_filter_literal_substring_witness :
    matchesFilter (buildProductFilter (some "glass") none none none none none)
        [("title", .vStr "Glass Card Pro")]
      = containsSubCI "Glass Card Pro" "glass" :=
  title_filter_literal_substring "glass" "Glass Card Pro"
    [("title", .vStr "Glass Card Pro")] (by decide) (by decide) rfl

/-- C4: `Order.payment` is declared without a default in `schemas.py`, so a
body omitting the payment sub-object is rejected by body validation (422)
and never reaches the handler — the handler's own
`order_dict.get("payment", {"method": "cod", "status": "pending"})`
defaulting step is dead code for omitted payment. The PaymentInfo defaults
do fire when `payment` is supplied as an empty object. -/
theorem order_missing_payment_rejected :
    model_validate_order orderBodyNoPayment = .error "payment: Field required" ∧
    create_order_endpoint (some ⟨seedProducts, [], [], [], []⟩)
        orderBodyNoPayment "ffffffffffffffffffffffff"
      = .error ⟨422, "payment: Field required"⟩ ∧
    (match create_order_endpoint (some ⟨seedProducts, [], [], [], []⟩)
        orderBodyEmptyPayment "ffffffffffffffffffffffff" with
     | .ok (_, stored) => dget stored "payment"
     | .error _ => none)
      = some (.vDoc [("method", .vStr "cod"), ("status", .vStr "pending")]) :=
  ⟨rfl, rfl, rfl⟩

/-- C5 counterexample: out-of-range pagination is rejected, but with the
framework's validation status 422, not 400. -/
theorem limit_bounds_422_counterexample :
    products_endpoint none none none none none none none 101 0 = .error 422 ∧
    decide ((422 : Nat) = 400) = false ∧
    blogs_endpoint none 0 0 = .error 422 :=
  ⟨rfl, rfl, rfl⟩

/-- C5 (amended): `limit > 100`, `limit < 1` or `skip < 0` is rejected at
the boundary of both list endpoints — with client-error status 422 (the
framework's validation status), not 400 — rather than silently clamped. -/
theorem pagination_bounds_enforced (limit skip : Int)
    (h : 100 < limit ∨ limit < 1 ∨ skip < 0) :
    (∀ (db : Option Store) (q c : Option String) (mn mx mr : Option Rat)
        (ft : Option Bool),
      products_endpoint db q c mn mx mr ft limit skip = .error 422) ∧
    (∀ db : Option Store, blogs_endpoint db limit skip = .error 422) := by
  constructor
  · intro db q c mn mx mr ft
    have hbad : badProductParams mn mx mr limit skip = true := by
      unfold badProductParams
      rcases h with h | h | h <;> simp [h]
    simp [products_endpoint, hbad]
  · intro db
    have hbad : (decide (limit < 1) || decide (100 < limit) || decide (skip < 0))
        = true := by
      rcases h with h | h | h <;> simp [h]
    simp [blogs_endpoint, hbad]

/-- C5 witness: the amended rejection at a concrete out-of-range limit. -/
theorem pagination_bounds_enforced_witness :
    blogs_endpoint none 0 5 = .error 422 :=
  (pagination_bounds_enforced 0 5 (Or.inr (Or.inl (by decide)))).2 none

/-- C6 counterexample: with the store handle absent, a malformed identifier
is answered 404 (the handlers check `db is None` first), not 400 — so
"malformed identifier → 400, never 404" fails as a universal statement. -/
theorem malformed_id_404_counterexample :
    get_product none "not-an-id" = .error ⟨404, "Not found"⟩ ∧
    isValidOidStr "not-an-id" = false ∧
    get_blog none "not-an-id" = .error ⟨404, "Not found"⟩ :=
  ⟨rfl, rfl, rfl⟩

/-- C6 (amended): given an available store, an identifier that does not
parse as an ObjectId yields 400 and never 404 on both lookup endpoints; one
that parses but matches no document yields 404; a (non-empty) match is
serialized and returned — for GET /api/products/{id} and
GET /api/blogs/{id} alike. With the store handle absent, both lookups
answer 404 for every identifier, malformed ones included. -/
theorem lookup_identifier_rule (store : Store) (pid : String) :
    (isValidOidStr pid = false →
      get_product (some store) pid = .error ⟨400, "Invalid id"⟩ ∧
      get_blog (some store) pid = .error ⟨400, "Invalid id"⟩) ∧
    (isValidOidStr pid = true →
      (findOne store.product [("_id", .vOid pid)] = none →
        get_product (some store) pid = .error ⟨404, "Not found"⟩) ∧
      (∀ d, findOne store.product [("_id", .vOid pid)] = some d → d ≠ [] →
        get_product (some store) pid = .ok (serialize_doc d)) ∧
      (findOne store.blogpost [("_id", .vOid pid)] = none →
        get_blog (some store) pid = .error ⟨404, "Not found"⟩) ∧
      (∀ d, findOne store.blogpost [("_id", .vOid pid)] = some d → d ≠ [] →
        get_blog (some store) pid = .ok (serialize_doc d))) ∧
    (get_product none pid = .error ⟨404, "Not found"⟩ ∧
     get_blog none pid = .error ⟨404, "Not found"⟩) := by
  refine ⟨?_, ?_, rfl, rfl⟩
  · intro hv
    constructor <;> simp [get_product, get_blog, objectIdOfStr, hv]
  · intro hv
    refine ⟨?_, ?_, ?_, ?_⟩
    · intro hf
      simp [get_product, objectIdOfStr, hv, hf]
    · intro d hf hd
      have hE : d.isEmpty = false := by
        cases d with
        | nil => exact absurd rfl hd
        | cons p rest => rfl
      simp [get_product, objectIdOfStr, hv, hf, hE]
    · intro hf
      simp [get_blog, objectIdOfStr, hv, hf]
    · intro d hf hd
      have hE : d.isEmpty = false := by
        cases d with
        | nil => exact absurd rfl hd
        | cons p rest => rfl
      simp [get_blog, objectIdOfStr, hv, hf, hE]

/-- C6 witness: the amended rule at a malformed identifier and at matching
identifiers on both lookup endpoints against a concrete store. -/
theorem lookup_identifier_rule_witness :
    get_product (some demoStore) "not-an-oid" = .error ⟨400, "Invalid id"⟩ ∧
    get_product (some demoStore) oid1 = .ok (serialize_doc prodDoc1) ∧
    get_blog (some demoStore) oid2 = .ok (serialize_doc blogDoc1) ∧
    get_blog (some demoStore) oid1 = .error ⟨404, "Not found"⟩ :=
  ⟨((lookup_identifier_rule demoStore "not-an-oid").1 rfl).1,
   ((lookup_identifier_rule demoStore oid1).2.1 rfl).2.1 prodDoc1 rfl
     (by simp [prodDoc1]),
   ((lookup_identifier_rule demoStore oid2).2.1 rfl).2.2.2 blogDoc1 rfl
     (by simp [blogDoc1]),
   ((lookup_identifier_rule demoStore oid1).2.1 rfl).2.2.1 rfl⟩

/-- C7: `min_price`/`max_price` combine into a single inclusive range
predicate on price with absent bounds omitted (no filter at all when both
are absent, no defaulting to 0/∞); against the seed data,
`min_price=100, max_price=250` selects exactly "Glass Card Pro". -/
theorem price_range_rule :
    (∀ (mn mx : Option Rat) (d : Doc) (p : Rat),
      dget d "price" = some (.vNum p) →
      (matchesFilter (buildProductFilter none none mn mx none none) d = true ↔
        (∀ m, mn = some m → m ≤ p) ∧ (∀ m, mx = some m → p ≤ m))) ∧
    buildProductFilter none none none none none none = [] ∧
    (seedProducts.filter (fun d =>
        matchesFilter (buildProductFilter none none (some 100) (some 250) none none) d)
      = [glassCardPro]) := by
  refine ⟨?_, rfl, rfl⟩
  intro mn mx d p hp
  cases mn with
  | none =>
      cases mx with
      | none => simp [buildProductFilter, matchesFilter]
      | some b => simp [buildProductFilter, matchesFilter, hp, condMatches]
  | some a =>
      cases mx with
      | none => simp [buildProductFilter, matchesFilter, hp, condMatches]
      | some b => simp [buildProductFilter, matchesFilter, hp, condMatches]

/-- C7 witness: the range predicate evaluated on the seeded
"Glass Card Pro" document. -/
theorem price_range_rule_witness :
    matchesFilter (buildProductFilter none none (some 100) (some 250) none none)
      glassCardPro = true :=
  (price_range_rule.1 (some 100) (some 250) glassCardPro 199 rfl).mpr
    ⟨fun m hm => by injection hm with h; subst h; norm_num,
     fun m hm => by injection hm with h; subst h; norm_num⟩

/-- The `find_one({"email": e})` predicate holds exactly on documents whose
`email` field equals `e`. -/
theorem findOne_email_pred (d : Doc) (email : String) :
    ([(("email" : String), Value.vStr email)].all (fun kv =>
      match dget d kv.1 with
      | some w => valueEqB w kv.2
      | none => false)) = true ↔ dget d "email" = some (.vStr email) := by
  simp only [List.all_cons, List.all_nil, Bool.and_true]
  cases hw : dget d "email" with
  | none => simp
  | some w => cases w <;> simp [valueEqB]

/-- C8: given a reachable store, registration with an email exactly equal
to a stored user's email yields the duplicate-email 400 rejection, and
registration with an email equal to no stored user's email succeeds and
returns the new identifier. -/
theorem register_email_rule (store : Store) (n email pw freshId : String) :
    ((∃ u ∈ store.user, dget u "email" = some (.vStr email)) →
      register (some store) n email pw freshId
        = .error ⟨400, "Email already registered"⟩) ∧
    ((∀ u ∈ store.user, dget u "email" ≠ some (.vStr email)) →
      register (some store) n email pw freshId
        = .ok [("status", .vStr "ok"), ("user_id", .vStr freshId)]) := by
  constructor
  · rintro ⟨u, hu, he⟩
    cases hf : findOne store.user [("email", .vStr email)] with
    | some w => simp [register, hf]
    | none =>
        exfalso
        unfold findOne at hf
        exact (List.find?_eq_none.mp hf) u hu ((findOne_email_pred u email).mpr he)
  · intro hall
    have hf : findOne store.user [("email", .vStr email)] = none := by
      unfold findOne
      apply List.find?_eq_none.mpr
      intro x hx hpx
      exact hall x hx ((findOne_email_pred x email).mp hpx)
    simp [register, hf]

/-- C8 witness: both branches at concrete emails against `userStore`. -/
theorem register_email_rule_witness :
    register (some userStore) "B" "a@x.com" "q" "bbbbbbbbbbbbbbbbbbbbbbbb"
      = .error ⟨400, "Email already registered"⟩ ∧
    register (some userStore) "B" "b@x.com" "q" "bbbbbbbbbbbbbbbbbbbbbbbb"
      = .ok [("status", .vStr "ok"), ("user_id", .vStr "bbbbbbbbbbbbbbbbbbbbbbbb")] :=
  ⟨(register_email_rule userStore "B" "a@x.com" "q" "bbbbbbbbbbbbbbbbbbbbbbbb").1
     ⟨userDoc1, by simp [userStore], rfl⟩,
   (register_email_rule userStore "B" "b@x.com" "q" "bbbbbbbbbbbbbbbbbbbbbbbb").2
     (by
       intro u hu h
       simp [userStore] at hu
       subst hu
       have he : dget userDoc1 "email" = some (.vStr "a@x.com") := rfl
       rw [he] at h
       injection h with h1
       injection h1 with h2
       exact absurd h2 (by decide))⟩

end ECom
